import Mathlib

/-!
Shallow embedding of `src/invoices.py`: the classes `Invoice` and
`InvoiceStats`, their validation logic, and the mean/median statistics with
the custom half-down rounding rule.

Modelling decisions:
  * Python numbers passed as amount components are modelled by `PyNum`, a sum
    of `int` (ℤ) and `float` (ℚ), so that the `isinstance(…, int)` type check
    and mixed-type arithmetic/comparisons of the source are expressible.
  * Python float arithmetic is modelled exactly over ℚ.
  * `x % 1` on a Python float with `x ≥ 0` or `x < 0` always yields the
    nonnegative fractional part `x - ⌊x⌋`, which is how it is embedded.
  * Exceptions are modelled with `Except`; an in-place mutating loop that can
    raise (`add_invoices`) is modelled by explicit state passing that returns
    the state reached at the moment of the failure.
  * `issue_dt` (wall-clock date) and `__repr__`/`__str__` formatting are not
    needed by any property below and are omitted.
  * The supplier/recipient names are completely unconstrained in the source,
    so `Invoice` is parametrised by the type of the name values.
-/

namespace Invoices

/-- A Python numeric value passed as an amount component: an `int` or a
`float` (floats modelled exactly as rationals). -/
inductive PyNum where
  | pyInt (n : ℤ)
  | pyFloat (q : ℚ)
deriving DecidableEq, Repr

/-- Numeric value of a `PyNum`, as used by Python arithmetic and comparisons. -/
def PyNum.toQ : PyNum → ℚ
  | .pyInt n => (n : ℚ)
  | .pyFloat q => q

/-- `type(x).__name__` for a `PyNum`. -/
def PyNum.typeName : PyNum → String
  | .pyInt _ => "int"
  | .pyFloat _ => "float"

/-- `isinstance(x, int)` for a `PyNum`. -/
def PyNum.isInt : PyNum → Bool
  | .pyInt _ => true
  | .pyFloat _ => false

/-- The distinct `InvoiceValidationError` messages raised by the private
check methods of `Invoice`, one constructor per `raise` site. -/
inductive InvoiceValidationError where
  | poundsNotInt (typeName : String)
  | penniesNotInt (typeName : String)
  | negativeValues
  | penniesOver99
  | overMaxValue
deriving DecidableEq, Repr

/-- `Invoice._MAX_VALUE_PENNIES = 2E10` (the float `2E10` equals this
integer exactly). -/
def MAX_VALUE_PENNIES : ℚ := 2 * 10 ^ 10

/-- The fields of an `Invoice` object after `__init__` has assigned them
(`issue_dt` omitted, see the module docstring). `ν` is the type of the
name arguments, which the source never constrains. -/
structure Invoice (ν : Type) where
  supplier : ν
  recipient : ν
  pounds : PyNum
  pennies_rem : PyNum
  pennies_tot : ℚ
deriving DecidableEq, Repr

variable {ν : Type}

/-- `Invoice.convert_to_pennies`: `100 * self.pounds + self.pennies_rem`. -/
def Invoice.convert_to_pennies (inv : Invoice ν) : ℚ :=
  100 * inv.pounds.toQ + inv.pennies_rem.toQ

/-- `Invoice._check_int_values`. -/
def Invoice.check_int_values (inv : Invoice ν) :
    Except InvoiceValidationError Unit :=
  if ¬ inv.pounds.isInt then
    .error (.poundsNotInt inv.pounds.typeName)
  else if ¬ inv.pennies_rem.isInt then
    .error (.penniesNotInt inv.pennies_rem.typeName)
  else
    .ok ()

/-- `Invoice._check_negative_values`. -/
def Invoice.check_negative_values (inv : Invoice ν) :
    Except InvoiceValidationError Unit :=
  if inv.pounds.toQ < 0 ∨ inv.pennies_rem.toQ < 0 then
    .error .negativeValues
  else
    .ok ()

/-- `Invoice._check_pennies`. -/
def Invoice.check_pennies (inv : Invoice ν) :
    Except InvoiceValidationError Unit :=
  if inv.pennies_rem.toQ > 99 then
    .error .penniesOver99
  else
    .ok ()

/-- `Invoice._check_max_value`. -/
def Invoice.check_max_value (inv : Invoice ν) :
    Except InvoiceValidationError Unit :=
  if inv.pennies_tot > MAX_VALUE_PENNIES then
    .error .overMaxValue
  else
    .ok ()

/-- `Invoice._check_valid_inputs`: the four checks in source order. -/
def Invoice.check_valid_inputs (inv : Invoice ν) :
    Except InvoiceValidationError Unit := do
  inv.check_int_values
  inv.check_negative_values
  inv.check_pennies
  inv.check_max_value

/-- `Invoice.__init__`: assign the fields (with `pennies_tot` from
`convert_to_pennies`), then run `_check_valid_inputs`; a raised
`InvoiceValidationError` aborts construction. -/
def Invoice.make (supplier recipient : ν) (pounds pennies_rem : PyNum) :
    Except InvoiceValidationError (Invoice ν) :=
  let inv : Invoice ν :=
    { supplier := supplier
      recipient := recipient
      pounds := pounds
      pennies_rem := pennies_rem
      pennies_tot := 100 * pounds.toQ + pennies_rem.toQ }
  (inv.check_valid_inputs).map fun _ => inv

/-- The exceptions `InvoiceStats` methods raise: `InvoiceStatsTypeError`
(carrying `type(x).__name__`) and `MaxNumberOfInvoicesError` (carrying
`_INVOICE_COUNT_MAX`). -/
inductive InvoiceStatsError where
  | typeError (typeName : String)
  | maxInvoices (maxInvoiceNum : ℚ)
deriving DecidableEq, Repr

/-- `InvoiceStats._INVOICE_COUNT_MAX = 2E7` (the float `2E7` equals this
integer exactly). -/
def INVOICE_COUNT_MAX : ℚ := 2 * 10 ^ 7

/-- The mutable state of an `InvoiceStats` object. -/
structure InvoiceStats (ν : Type) where
  invoice_list : List (Invoice ν)
  invoice_count : ℤ
deriving DecidableEq, Repr

/-- A Python value passed to `add_invoice`: an `Invoice`, or any other
object, of which only `type(x).__name__` matters to the source. -/
inductive StatsInput (ν : Type) where
  | invoice (i : Invoice ν)
  | other (typeName : String)
deriving DecidableEq, Repr

/-- `InvoiceStats.is_invoice`: raise `InvoiceStatsTypeError` unless the
argument is an `Invoice`. (The source returns `None` on success; the
checked invoice is returned here to thread it to the caller.) -/
def is_invoice : StatsInput ν → Except InvoiceStatsError (Invoice ν)
  | .invoice i => .ok i
  | .other t => .error (.typeError t)

/-- `InvoiceStats.check_max_invoice_num`: raise `MaxNumberOfInvoicesError`
when `invoice_count >= _INVOICE_COUNT_MAX`. -/
def check_max_invoice_num (s : InvoiceStats ν) :
    Except InvoiceStatsError Unit :=
  if (s.invoice_count : ℚ) ≥ INVOICE_COUNT_MAX then
    .error (.maxInvoices INVOICE_COUNT_MAX)
  else
    .ok ()

/-- `InvoiceStats.add_invoice`: `is_invoice`, then `check_max_invoice_num`,
then increment the count and append. -/
def add_invoice (s : InvoiceStats ν) (x : StatsInput ν) :
    Except InvoiceStatsError (InvoiceStats ν) := do
  let i ← is_invoice x
  check_max_invoice_num s
  return { invoice_list := s.invoice_list ++ [i]
           invoice_count := s.invoice_count + 1 }

/-- `InvoiceStats.add_invoices`: call `add_invoice` on each element in
order. A raised exception stops the loop; the state reached so far is
returned together with the exception, since Python mutates in place. -/
def add_invoices (s : InvoiceStats ν) :
    List (StatsInput ν) → InvoiceStats ν × Option InvoiceStatsError
  | [] => (s, none)
  | x :: xs =>
    match add_invoice s x with
    | .ok s' => add_invoices s' xs
    | .error e => (s, some e)

/-- `InvoiceStats.clear`: empty the list and zero the count. -/
def clear (_s : InvoiceStats ν) : InvoiceStats ν :=
  { invoice_list := [], invoice_count := 0 }

/-- `InvoiceStats.__init__(*args)`: `clear()` then `add_invoices(args)`. -/
def init (args : List (StatsInput ν)) :
    InvoiceStats ν × Option InvoiceStatsError :=
  add_invoices { invoice_list := [], invoice_count := 0 } args

/-- `InvoiceStats.invoice_amounts`: the `pennies_tot` of each stored
invoice, in storage order. -/
def invoice_amounts (s : InvoiceStats ν) : List ℚ :=
  s.invoice_list.map (·.pennies_tot)

/-- `statistics.mean` of the Python standard library: raises
`StatisticsError` on empty data, otherwise the exact arithmetic mean. -/
def statistics_mean (data : List ℚ) : Except String ℚ :=
  if data.length = 0 then
    .error "mean requires at least one data point"
  else
    .ok (data.sum / (data.length : ℚ))

/-- Insert into an ascending list, keeping it ascending. -/
def insort (a : ℚ) : List ℚ → List ℚ
  | [] => [a]
  | b :: l => if a ≤ b then a :: b :: l else b :: insort a l

/-- Python's `sorted`: ascending sort. On ℚ (a linear order with
antisymmetry) every correct sort returns the same list, so insertion sort
models `sorted` exactly. -/
def sortList : List ℚ → List ℚ
  | [] => []
  | a :: l => insort a (sortList l)

/-- `statistics.median` of the Python standard library: raises
`StatisticsError` on empty data; otherwise sorts the data and returns the
middle element (odd length) or the mean of the two middle elements (even
length). -/
def statistics_median (data : List ℚ) : Except String ℚ :=
  let n := data.length
  if n = 0 then
    .error "no median for empty data"
  else
    let sorted := sortList data
    if n % 2 = 1 then
      .ok (sorted.getD (n / 2) 0)
    else
      .ok ((sorted.getD (n / 2 - 1) 0 + sorted.getD (n / 2) 0) / 2)

/-- `InvoiceStats.round_half_down`: `pennies % 1` (the fractional part),
then `math.floor` when it is `≤ 0.5`, else `math.ceil`. -/
def round_half_down (pennies : ℚ) : ℤ :=
  let fractional_penny := pennies - ⌊pennies⌋
  if fractional_penny ≤ 1 / 2 then ⌊pennies⌋ else ⌈pennies⌉

/-- `InvoiceStats.get_median`: `round_half_down` of
`statistics.median(invoice_amounts())`; the `StatisticsError` of the
statistics module propagates. -/
def get_median (s : InvoiceStats ν) : Except String ℤ :=
  (statistics_median (invoice_amounts s)).map round_half_down

/-- `InvoiceStats.get_mean`: `round_half_down` of
`statistics.mean(invoice_amounts())`; the `StatisticsError` of the
statistics module propagates. -/
def get_mean (s : InvoiceStats ν) : Except String ℤ :=
  (statistics_mean (invoice_amounts s)).map round_half_down

/-- The `InvoiceStats` states reachable through the source's interface:
the state `__init__`/`clear` produces, plus anything a successful
`add_invoice` yields from a reachable state. -/
inductive Reachable : InvoiceStats ν → Prop where
  | empty : Reachable { invoice_list := [], invoice_count := 0 }
  | add {s s' : InvoiceStats ν} {x : StatsInput ν} :
      Reachable s → add_invoice s x = .ok s' → Reachable s'
  | clearStep {s : InvoiceStats ν} : Reachable s → Reachable (clear s)

/-- Example invoice of £1000.00, as in the repository's unit tests. -/
def testInvoice1 : Invoice String :=
  { supplier := "Company-A", recipient := "Company-B", pounds := .pyInt 1000,
    pennies_rem := .pyInt 0, pennies_tot := 100000 }

/-- Example invoice of £2500.00, as in the repository's unit tests. -/
def testInvoice2 : Invoice String :=
  { supplier := "Company-A", recipient := "Company-C", pounds := .pyInt 2500,
    pennies_rem := .pyInt 0, pennies_tot := 250000 }

/-- Example invoice of £3000.00, as in the repository's unit tests. -/
def testInvoice3 : Invoice String :=
  { supplier := "Company-A", recipient := "Company-D", pounds := .pyInt 3000,
    pennies_rem := .pyInt 0, pennies_tot := 300000 }

/-- Example invoice of £1.00, used by concrete witnesses. -/
def smallInvoice : Invoice String :=
  { supplier := "A", recipient := "B", pounds := .pyInt 1,
    pennies_rem := .pyInt 0, pennies_tot := 100 }

/-- The empty aggregator state, as produced by `clear`. -/
def emptyStats : InvoiceStats String :=
  { invoice_list := [], invoice_count := 0 }

/-- An aggregator state at the capacity limit. -/
def fullStats : InvoiceStats String :=
  { invoice_list := [], invoice_count := 20000000 }

/-- Helper: `Invoice.__init__` succeeds on integer amounts satisfying all
four validation constraints, and stores all fields unchanged with
`pennies_tot = 100 * pounds + pennies_rem`. -/
lemma make_ok_of_valid (a b : ν) (M m : ℤ) (hM : 0 ≤ M) (hm0 : 0 ≤ m)
    (hm99 : m ≤ 99) (htot : 100 * M + m ≤ 20000000000) :
    Invoice.make a b (.pyInt M) (.pyInt m) =
      .ok { supplier := a, recipient := b, pounds := .pyInt M,
            pennies_rem := .pyInt m, pennies_tot := ((100 * M + m : ℤ) : ℚ) } := by
  have hneg : ¬ ((PyNum.pyInt M).toQ < 0 ∨ (PyNum.pyInt m).toQ < 0) := by
    simp only [PyNum.toQ]
    push_neg
    exact ⟨by exact_mod_cast hM, by exact_mod_cast hm0⟩
  have hp : ¬ ((PyNum.pyInt m).toQ > 99) := by
    simp only [PyNum.toQ]
    push_neg
    exact_mod_cast hm99
  have hmaxq : ((100 * M + m : ℤ) : ℚ) ≤ 2 * 10 ^ 10 := by
    calc ((100 * M + m : ℤ) : ℚ) ≤ ((20000000000 : ℤ) : ℚ) := by exact_mod_cast htot
    _ = 2 * 10 ^ 10 := by norm_num
  have hmax : ¬ (100 * (PyNum.pyInt M).toQ + (PyNum.pyInt m).toQ > MAX_VALUE_PENNIES) := by
    simp only [PyNum.toQ, MAX_VALUE_PENNIES]
    push_neg
    push_cast at hmaxq ⊢
    linarith
  simp [Invoice.make, Invoice.check_valid_inputs, Invoice.check_int_values,
    Invoice.check_negative_values, Invoice.check_pennies, Invoice.check_max_value,
    PyNum.isInt, hneg, hp, hmax, Except.map, bind, Except.bind]
  simp only [PyNum.toQ]

/-- C1: for every number `x`, the rounding function returns `⌊x⌋` when the
fractional part `x % 1` is at most one half, and `⌈x⌉` when it is greater;
the inputs `[10.0, 10.2, 10.5, 10.5000001, 10.8]` map to
`[10, 10, 10, 11, 11]`. -/
theorem round_half_down_spec :
    (∀ x : ℚ, (Int.fract x ≤ 1 / 2 → round_half_down x = ⌊x⌋) ∧
      (1 / 2 < Int.fract x → round_half_down x = ⌈x⌉)) ∧
    [(10 : ℚ), 102 / 10, 105 / 10, 105000001 / 10 ^ 7, 108 / 10].map round_half_down =
      [10, 10, 10, 11, 11] := by
  constructor
  · intro x
    simp only [Int.fract, round_half_down]
    constructor
    · intro h
      rw [if_pos h]
    · intro h
      rw [if_neg (by linarith)]
  · simp only [List.map, round_half_down]
    norm_num
    constructor
    · rw [Int.ceil_eq_iff]
      norm_num
    · rw [Int.ceil_eq_iff]
      norm_num

/-- Witness for C1 at `x = 10.5` (floor branch) and `x = 10.7`
(ceil branch). -/
theorem round_half_down_spec_witness :
    Int.fract (21 / 2 : ℚ) ≤ 1 / 2 ∧ round_half_down (21 / 2) = ⌊(21 / 2 : ℚ)⌋ ∧
    1 / 2 < Int.fract (107 / 10 : ℚ) ∧ round_half_down (107 / 10) = ⌈(107 / 10 : ℚ)⌉ := by
  have h1 : Int.fract (21 / 2 : ℚ) ≤ 1 / 2 := by
    simp only [Int.fract]
    norm_num
  have h2 : 1 / 2 < Int.fract (107 / 10 : ℚ) := by
    simp only [Int.fract]
    norm_num
  exact ⟨h1, (round_half_down_spec.1 (21 / 2)).1 h1, h2,
    (round_half_down_spec.1 (107 / 10)).2 h2⟩

/-- C2: for integer amounts with `0 ≤ pounds`, `0 ≤ pennies_rem ≤ 99` and
total at most `2 * 10 ^ 10` pennies, construction succeeds and
`convert_to_pennies` returns `100 * pounds + pennies_rem`. -/
theorem invoice_make_valid (a b : String) (M m : ℤ) (hM : 0 ≤ M) (hm0 : 0 ≤ m)
    (hm99 : m ≤ 99) (htot : 100 * M + m ≤ 20000000000) :
    Invoice.make a b (.pyInt M) (.pyInt m) =
      .ok { supplier := a, recipient := b, pounds := .pyInt M,
            pennies_rem := .pyInt m, pennies_tot := ((100 * M + m : ℤ) : ℚ) } ∧
    (Invoice.make a b (.pyInt M) (.pyInt m)).map Invoice.convert_to_pennies =
      .ok ((100 * M + m : ℤ) : ℚ) := by
  have h := make_ok_of_valid a b M m hM hm0 hm99 htot
  refine ⟨h, ?_⟩
  rw [h]
  simp only [Except.map, Invoice.convert_to_pennies, PyNum.toQ]
  push_cast
  ring_nf

/-- Witness for C2 at pounds 19, pennies 84: total 1984 pennies. -/
theorem invoice_make_valid_witness :
    Invoice.make "Company-A" "Company-B" (.pyInt 19) (.pyInt 84) =
      .ok { supplier := "Company-A", recipient := "Company-B",
            pounds := .pyInt 19, pennies_rem := .pyInt 84,
            pennies_tot := (1984 : ℚ) } ∧
    (Invoice.make "Company-A" "Company-B" (.pyInt 19) (.pyInt 84)).map
      Invoice.convert_to_pennies = .ok (1984 : ℚ) := by
  have h := invoice_make_valid "Company-A" "Company-B" 19 84
    (by norm_num) (by norm_num) (by norm_num) (by norm_num)
  norm_num at h
  exact h

/-- C9: the name arguments are not validated: for every type of name value
and every pair of names, construction with valid integer amounts succeeds
and stores both names unchanged. -/
theorem no_name_validation (μ : Type) (a b : μ) (M m : ℤ) (hM : 0 ≤ M)
    (hm0 : 0 ≤ m) (hm99 : m ≤ 99) (htot : 100 * M + m ≤ 20000000000) :
    Invoice.make a b (.pyInt M) (.pyInt m) =
      .ok { supplier := a, recipient := b, pounds := .pyInt M,
            pennies_rem := .pyInt m, pennies_tot := ((100 * M + m : ℤ) : ℚ) } :=
  make_ok_of_valid a b M m hM hm0 hm99 htot

/-- Witness for C9 with names of type `Bool`. -/
theorem no_name_validation_witness :
    Invoice.make true false (.pyInt 5) (.pyInt 25) =
      .ok { supplier := true, recipient := false, pounds := .pyInt 5,
            pennies_rem := .pyInt 25, pennies_tot := (525 : ℚ) } := by
  have h := no_name_validation Bool true false 5 25
    (by norm_num) (by norm_num) (by norm_num) (by norm_num)
  norm_num at h
  exact h

/-- C3: construction fails with the validation error of the first failing
check, in the order type check → negativity check → pennies-range check →
max-value check; in particular a non-integer component reports the type
error regardless of any later violation. -/
theorem invoice_validation_order (a b : String) (pounds pennies : PyNum) :
    (pounds.isInt = false →
      Invoice.make a b pounds pennies =
        .error (.poundsNotInt pounds.typeName)) ∧
    (pounds.isInt = true → pennies.isInt = false →
      Invoice.make a b pounds pennies =
        .error (.penniesNotInt pennies.typeName)) ∧
    (pounds.isInt = true → pennies.isInt = true →
      (pounds.toQ < 0 ∨ pennies.toQ < 0) →
      Invoice.make a b pounds pennies = .error .negativeValues) ∧
    (pounds.isInt = true → pennies.isInt = true →
      0 ≤ pounds.toQ → 0 ≤ pennies.toQ → pennies.toQ > 99 →
      Invoice.make a b pounds pennies = .error .penniesOver99) ∧
    (pounds.isInt = true → pennies.isInt = true →
      0 ≤ pounds.toQ → 0 ≤ pennies.toQ → pennies.toQ ≤ 99 →
      100 * pounds.toQ + pennies.toQ > MAX_VALUE_PENNIES →
      Invoice.make a b pounds pennies = .error .overMaxValue) := by
  refine ⟨?_, ?_, ?_, ?_, ?_⟩
  · intro h
    simp [Invoice.make, Invoice.check_valid_inputs, Invoice.check_int_values, h,
      Except.map, bind, Except.bind]
  · intro h1 h2
    simp [Invoice.make, Invoice.check_valid_inputs, Invoice.check_int_values, h1, h2,
      Except.map, bind, Except.bind]
  · intro h1 h2 h3
    simp [Invoice.make, Invoice.check_valid_inputs, Invoice.check_int_values,
      Invoice.check_negative_values, h1, h2, h3, Except.map, bind, Except.bind]
  · intro h1 h2 h3 h4 h5
    have hneg : ¬ (pounds.toQ < 0 ∨ pennies.toQ < 0) := by
      push_neg
      exact ⟨h3, h4⟩
    simp [Invoice.make, Invoice.check_valid_inputs, Invoice.check_int_values,
      Invoice.check_negative_values, Invoice.check_pennies, h1, h2, hneg, h5,
      Except.map, bind, Except.bind]
  · intro h1 h2 h3 h4 h5 h6
    have hneg : ¬ (pounds.toQ < 0 ∨ pennies.toQ < 0) := by
      push_neg
      exact ⟨h3, h4⟩
    have hp : ¬ (pennies.toQ > 99) := by
      push_neg
      exact h5
    simp [Invoice.make, Invoice.check_valid_inputs, Invoice.check_int_values,
      Invoice.check_negative_values, Invoice.check_pennies, Invoice.check_max_value,
      h1, h2, hneg, hp, h6, Except.map, bind, Except.bind]

/-- Witness for C3: one concrete failure for each of the five error sites;
the first input is both non-integer and negative and reports the type
error. -/
theorem invoice_validation_order_witness :
    Invoice.make "A" "B" (.pyFloat (-3 / 2)) (.pyInt 5) =
      .error (.poundsNotInt "float") ∧
    Invoice.make "A" "B" (.pyInt 3) (.pyFloat (1 / 2)) =
      .error (.penniesNotInt "float") ∧
    Invoice.make "A" "B" (.pyInt (-2)) (.pyInt 5) = .error .negativeValues ∧
    Invoice.make "A" "B" (.pyInt 3) (.pyInt 121) = .error .penniesOver99 ∧
    Invoice.make "A" "B" (.pyInt 300000000) (.pyInt 0) = .error .overMaxValue := by
  refine ⟨?_, ?_, ?_, ?_, ?_⟩
  · exact (invoice_validation_order "A" "B" (.pyFloat (-3 / 2)) (.pyInt 5)).1 rfl
  · exact (invoice_validation_order "A" "B" (.pyInt 3) (.pyFloat (1 / 2))).2.1 rfl rfl
  · exact (invoice_validation_order "A" "B" (.pyInt (-2)) (.pyInt 5)).2.2.1 rfl rfl
      (Or.inl (by norm_num [PyNum.toQ]))
  · exact (invoice_validation_order "A" "B" (.pyInt 3) (.pyInt 121)).2.2.2.1 rfl rfl
      (by norm_num [PyNum.toQ]) (by norm_num [PyNum.toQ]) (by norm_num [PyNum.toQ])
  · exact (invoice_validation_order "A" "B" (.pyInt 300000000) (.pyInt 0)).2.2.2.2
      rfl rfl (by norm_num [PyNum.toQ]) (by norm_num [PyNum.toQ])
      (by norm_num [PyNum.toQ]) (by norm_num [PyNum.toQ, MAX_VALUE_PENNIES])

/-- C8: `add_invoice` runs the type check before the capacity check: a
non-invoice argument fails with the type error naming the received type
whatever the count is, an invoice at capacity fails with the capacity
error naming the configured maximum, and otherwise the invoice is appended
and the count incremented. -/
theorem add_invoice_spec (s : InvoiceStats ν) :
    (∀ t, add_invoice s (.other t) = .error (.typeError t)) ∧
    (∀ i : Invoice ν, (s.invoice_count : ℚ) ≥ INVOICE_COUNT_MAX →
      add_invoice s (.invoice i) = .error (.maxInvoices INVOICE_COUNT_MAX)) ∧
    (∀ i : Invoice ν, (s.invoice_count : ℚ) < INVOICE_COUNT_MAX →
      add_invoice s (.invoice i) =
        .ok { invoice_list := s.invoice_list ++ [i],
              invoice_count := s.invoice_count + 1 }) := by
  refine ⟨?_, ?_, ?_⟩
  · intro t
    simp [add_invoice, is_invoice, bind, Except.bind]
  · intro i h
    simp [add_invoice, is_invoice, check_max_invoice_num, h, bind, Except.bind]
  · intro i h
    simp [add_invoice, is_invoice, check_max_invoice_num, not_le.mpr h, bind,
      Except.bind, pure, Except.pure]

/-- Witness for C8: the three branches at concrete states, with the
non-invoice argument rejected by type even at full capacity. -/
theorem add_invoice_spec_witness :
    add_invoice ({ invoice_list := [], invoice_count := 20000000 } :
        InvoiceStats String) (.other "str") = .error (.typeError "str") ∧
    add_invoice ({ invoice_list := [], invoice_count := 20000000 } :
        InvoiceStats String)
      (.invoice { supplier := "A", recipient := "B", pounds := .pyInt 1,
                  pennies_rem := .pyInt 0, pennies_tot := 100 }) =
      .error (.maxInvoices INVOICE_COUNT_MAX) ∧
    add_invoice ({ invoice_list := [], invoice_count := 0 } : InvoiceStats String)
      (.invoice { supplier := "A", recipient := "B", pounds := .pyInt 1,
                  pennies_rem := .pyInt 0, pennies_tot := 100 }) =
      .ok { invoice_list := [{ supplier := "A", recipient := "B",
                               pounds := .pyInt 1, pennies_rem := .pyInt 0,
                               pennies_tot := 100 }],
            invoice_count := 1 } := by
  refine ⟨(add_invoice_spec _).1 "str",
    (add_invoice_spec _).2.1 _ (by norm_num [INVOICE_COUNT_MAX]), ?_⟩
  have h := (add_invoice_spec ({ invoice_list := [], invoice_count := 0 } :
      InvoiceStats String)).2.2
    { supplier := "A", recipient := "B", pounds := .pyInt 1,
      pennies_rem := .pyInt 0, pennies_tot := 100 }
    (by norm_num [INVOICE_COUNT_MAX])
  simpa using h

/-- Helper: a successful `add_invoice` implies the old count was below the
cap and the new count is the old count plus one. -/
lemma add_invoice_ok_inv {s s' : InvoiceStats ν} {x : StatsInput ν}
    (h : add_invoice s x = .ok s') :
    s.invoice_count < 20000000 ∧ s'.invoice_count = s.invoice_count + 1 := by
  cases x with
  | other t => simp [add_invoice, is_invoice, bind, Except.bind] at h
  | invoice i =>
    by_cases hc : (s.invoice_count : ℚ) ≥ INVOICE_COUNT_MAX
    · simp [add_invoice, is_invoice, check_max_invoice_num, hc, bind,
        Except.bind] at h
    · simp [add_invoice, is_invoice, check_max_invoice_num, hc, bind,
        Except.bind, pure, Except.pure] at h
      push_neg at hc
      have hq : (s.invoice_count : ℚ) < 20000000 := by
        have := hc
        norm_num [INVOICE_COUNT_MAX] at this
        exact this
      refine ⟨by exact_mod_cast hq, ?_⟩
      rw [← h]

/-- C5: every state reachable through the interface has at most 20,000,000
stored invoices; an insert attempted at or beyond the cap fails with the
capacity error and returns no modified state, so the list and count are
unchanged. -/
theorem capacity_invariant :
    (∀ s : InvoiceStats ν, Reachable s → s.invoice_count ≤ 20000000) ∧
    (∀ (s : InvoiceStats ν) (i : Invoice ν),
      (s.invoice_count : ℚ) ≥ INVOICE_COUNT_MAX →
      add_invoice s (.invoice i) = .error (.maxInvoices INVOICE_COUNT_MAX) ∧
      (add_invoices s [.invoice i]).1 = s) := by
  constructor
  · intro s h
    induction h with
    | empty => norm_num
    | add hr hok ih =>
      have hinv := add_invoice_ok_inv hok
      omega
    | clearStep hr ih => simp [clear]
  · intro s i h
    have he : add_invoice s (.invoice i) =
        .error (.maxInvoices INVOICE_COUNT_MAX) := by
      simp [add_invoice, is_invoice, check_max_invoice_num, h, bind, Except.bind]
    exact ⟨he, by simp [add_invoices, he]⟩

/-- Witness for C5: the freshly initialised state satisfies the bound, and
a state at the cap rejects an insert without producing a new state. -/
theorem capacity_invariant_witness :
    ({ invoice_list := [], invoice_count := 0 } :
        InvoiceStats String).invoice_count ≤ 20000000 ∧
    add_invoice ({ invoice_list := [], invoice_count := 20000000 } :
        InvoiceStats String)
      (.invoice { supplier := "A", recipient := "B", pounds := .pyInt 1,
                  pennies_rem := .pyInt 0, pennies_tot := 100 }) =
      .error (.maxInvoices INVOICE_COUNT_MAX) ∧
    (add_invoices ({ invoice_list := [], invoice_count := 20000000 } :
        InvoiceStats String)
      [.invoice { supplier := "A", recipient := "B", pounds := .pyInt 1,
                  pennies_rem := .pyInt 0, pennies_tot := 100 }]).1 =
      { invoice_list := [], invoice_count := 20000000 } := by
  have h2 := (capacity_invariant (ν := String)).2
    { invoice_list := [], invoice_count := 20000000 }
    { supplier := "A", recipient := "B", pounds := .pyInt 1,
      pennies_rem := .pyInt 0, pennies_tot := 100 }
    (by norm_num [INVOICE_COUNT_MAX])
  exact ⟨(capacity_invariant (ν := String)).1 _ Reachable.empty, h2.1, h2.2⟩

/-- C6: with zero stored invoices, `get_mean` and `get_median` fail with
the empty-input errors of the statistics module, which propagate
unchanged. -/
theorem empty_stats_error (s : InvoiceStats ν) (h : s.invoice_list = []) :
    get_mean s = .error "mean requires at least one data point" ∧
    get_median s = .error "no median for empty data" := by
  constructor
  · simp [get_mean, invoice_amounts, h, statistics_mean, Except.map]
  · simp [get_median, invoice_amounts, h, statistics_median, Except.map]

/-- Witness for C6 at the empty aggregator state. -/
theorem empty_stats_error_witness :
    get_mean ({ invoice_list := [], invoice_count := 0 } : InvoiceStats String) =
      .error "mean requires at least one data point" ∧
    get_median ({ invoice_list := [], invoice_count := 0 } : InvoiceStats String) =
      .error "no median for empty data" :=
  empty_stats_error { invoice_list := [], invoice_count := 0 } rfl

/-- Helper: below the cap, `add_invoice` on an invoice appends it and
increments the count. -/
lemma add_invoice_ok_of_lt (s : InvoiceStats ν) (i : Invoice ν)
    (h : (s.invoice_count : ℚ) < INVOICE_COUNT_MAX) :
    add_invoice s (.invoice i) =
      .ok { invoice_list := s.invoice_list ++ [i],
            invoice_count := s.invoice_count + 1 } := by
  simp [add_invoice, is_invoice, check_max_invoice_num, not_le.mpr h, bind,
    Except.bind, pure, Except.pure]

/-- Helper: a successful head insert makes `add_invoices` continue on the
tail from the new state. -/
lemma add_invoices_cons (s : InvoiceStats ν) (x : StatsInput ν)
    (xs : List (StatsInput ν)) (s2 : InvoiceStats ν)
    (h : add_invoice s x = .ok s2) :
    add_invoices s (x :: xs) = add_invoices s2 xs := by
  simp only [add_invoices, h]

/-- C7: `add_invoices` feeds the elements to `add_invoice` one at a time
in order; when the loop stops at a failing insert, the state returned is
exactly the one reached by the successful prefix, so earlier inserts are
kept (no rollback). -/
theorem add_invoices_no_rollback (s : InvoiceStats ν) (l : List (StatsInput ν)) :
    (∀ (x : StatsInput ν) (xs : List (StatsInput ν)),
      add_invoices s (x :: xs) =
        match add_invoice s x with
        | .ok s' => add_invoices s' xs
        | .error e => (s, some e)) ∧
    (∀ e, (add_invoices s l).2 = some e →
      ∃ k y, l[k]? = some y ∧
        (add_invoices s (l.take k)).2 = none ∧
        (add_invoices s l).1 = (add_invoices s (l.take k)).1 ∧
        add_invoice (add_invoices s (l.take k)).1 y = .error e) := by
  constructor
  · intro x xs
    rfl
  · induction l generalizing s with
    | nil =>
      intro e he
      simp [add_invoices] at he
    | cons x xs ih =>
      intro e he
      cases hadd : add_invoice s x with
      | error e' =>
        simp only [add_invoices, hadd] at he
        refine ⟨0, x, by simp, by simp [add_invoices], ?_, ?_⟩
        · simp [add_invoices, hadd]
        · simp only [List.take_zero, add_invoices]
          rw [hadd]
          simp only [Option.some.injEq] at he
          rw [he]
      | ok s' =>
        simp only [add_invoices, hadd] at he
        obtain ⟨k, y, hget, htake, heq, herr⟩ := ih s' e he
        refine ⟨k + 1, y, by simpa using hget, ?_, ?_, ?_⟩
        · simpa [add_invoices, hadd] using htake
        · simpa [add_invoices, hadd] using heq
        · simpa [add_invoices, hadd] using herr

/-- Witness for C7: inserting a valid invoice and then a string fails on
the string, and the state kept is the one reached by the successful
prefix. -/
theorem add_invoices_no_rollback_witness :
    (add_invoices emptyStats [.invoice smallInvoice, .other "str"]).2 =
      some (.typeError "str") ∧
    (∃ k y,
      ([.invoice smallInvoice, .other "str"] :
        List (StatsInput String))[k]? = some y ∧
      (add_invoices emptyStats
        (([.invoice smallInvoice, .other "str"] :
          List (StatsInput String)).take k)).2 = none ∧
      (add_invoices emptyStats [.invoice smallInvoice, .other "str"]).1 =
        (add_invoices emptyStats
          (([.invoice smallInvoice, .other "str"] :
            List (StatsInput String)).take k)).1 ∧
      add_invoice
        (add_invoices emptyStats
          (([.invoice smallInvoice, .other "str"] :
            List (StatsInput String)).take k)).1 y =
        .error (.typeError "str")) := by
  have h1 := add_invoice_ok_of_lt emptyStats smallInvoice
    (by norm_num [emptyStats, INVOICE_COUNT_MAX])
  have h2 : add_invoice ({ invoice_list := [smallInvoice],
                           invoice_count := 1 } : InvoiceStats String)
      (.other "str") = .error (.typeError "str") := by
    simp [add_invoice, is_invoice, bind, Except.bind]
  norm_num [emptyStats] at h1
  have he : (add_invoices emptyStats
      [.invoice smallInvoice, .other "str"]).2 = some (.typeError "str") := by
    rw [show emptyStats = { invoice_list := [], invoice_count := 0 } from rfl,
      add_invoices_cons _ _ _ _ h1]
    simp [add_invoices, h2]
  exact ⟨he, (add_invoices_no_rollback _ _).2 _ he⟩

/-- C4: an aggregator constructed from three invoices of total values
100000, 250000 and 300000 pennies has mean 216667 and median 250000. -/
theorem mean_median_example (i1 i2 i3 : Invoice String)
    (h1 : i1.pennies_tot = 100000) (h2 : i2.pennies_tot = 250000)
    (h3 : i3.pennies_tot = 300000) :
    get_mean (init [.invoice i1, .invoice i2, .invoice i3]).1 = .ok 216667 ∧
    get_median (init [.invoice i1, .invoice i2, .invoice i3]).1 = .ok 250000 := by
  have e1 := add_invoice_ok_of_lt
    ({ invoice_list := [], invoice_count := 0 } : InvoiceStats String) i1
    (by norm_num [INVOICE_COUNT_MAX])
  have e2 := add_invoice_ok_of_lt
    ({ invoice_list := [i1], invoice_count := 1 } : InvoiceStats String) i2
    (by norm_num [INVOICE_COUNT_MAX])
  have e3 := add_invoice_ok_of_lt
    ({ invoice_list := [i1, i2], invoice_count := 2 } : InvoiceStats String) i3
    (by norm_num [INVOICE_COUNT_MAX])
  norm_num at e1 e2 e3
  have hs : (init [(.invoice i1 : StatsInput String), .invoice i2,
      .invoice i3]).1 = { invoice_list := [i1, i2, i3], invoice_count := 3 } := by
    rw [init, add_invoices_cons _ _ _ _ e1, add_invoices_cons _ _ _ _ e2,
      add_invoices_cons _ _ _ _ e3]
    rfl
  rw [hs]
  constructor
  · simp only [get_mean, invoice_amounts, List.map, h1, h2, h3,
      statistics_mean, Except.map]
    norm_num [round_half_down]
    rw [Int.ceil_eq_iff]
    norm_num
  · simp only [get_median, invoice_amounts, List.map, h1, h2, h3,
      statistics_median, Except.map]
    norm_num [sortList, insort, round_half_down]

/-- Witness for C4 with the concrete invoices of £1000.00, £2500.00 and
£3000.00 from the repository's unit tests. -/
theorem mean_median_example_witness :
    get_mean (init [.invoice testInvoice1, .invoice testInvoice2,
      .invoice testInvoice3]).1 = .ok 216667 ∧
    get_median (init [.invoice testInvoice1, .invoice testInvoice2,
      .invoice testInvoice3]).1 = .ok 250000 :=
  mean_median_example testInvoice1 testInvoice2 testInvoice3 rfl rfl rfl

/-- C10: an aggregator holding exactly one invoice whose total is the
integer `n` has both mean and median equal to `n`: the statistic is the
single amount and rounding an integer leaves it unchanged. -/
theorem singleton_mean_median (i : Invoice ν) (n : ℤ)
    (hn : i.pennies_tot = (n : ℚ)) (s : InvoiceStats ν)
    (hs : s.invoice_list = [i]) :
    get_mean s = .ok n ∧ get_median s = .ok n := by
  have hr : round_half_down ((n : ℤ) : ℚ) = n := by
    norm_num [round_half_down, Int.floor_intCast]
  constructor
  · simp [get_mean, invoice_amounts, hs, hn, statistics_mean, Except.map, hr]
  · simp [get_median, invoice_amounts, hs, hn, statistics_median, sortList,
      insort, Except.map, hr]

/-- Witness for C10 with a single invoice of 100 pennies. -/
theorem singleton_mean_median_witness :
    get_mean ({ invoice_list := [smallInvoice], invoice_count := 1 } :
      InvoiceStats String) = .ok 100 ∧
    get_median ({ invoice_list := [smallInvoice], invoice_count := 1 } :
      InvoiceStats String) = .ok 100 :=
  singleton_mean_median smallInvoice 100 (by norm_num [smallInvoice]) _ rfl

end Invoices
